import Mathlib

/-!
Shallow embedding of the storage core in `src/database/src/lib.rs` (crate
`database`) together with the layout constants produced by the
`StructLayout` derive macro in `src/struct_layout/src/lib.rs`.

Conventions of the embedding:
* machine integers (`u8`, `u32`, `u64`, `usize`) are `Nat`; wrap-around is
  made explicit through `% 2 ^ w` (the big-endian encoders truncate to the
  field width exactly as `to_be_bytes` does);
* byte buffers (`Vec<u8>`, `&mut [u8]`) are `List Nat`;
* a Rust `panic!` / failed `assert!` / out-of-bounds slice index is `none`;
* the `StructLayout` constants (`*_OFFSET`, `*_SIZE`, `*_span`) are the
  concrete values `memoffset` yields for the `#[repr(C)]` structs of the
  source: they are computed once here, following the C layout rules
  (each field aligned to its natural alignment, `PageType` is a fieldless
  enum of size and alignment 1).
-/

/-! ### Big-endian byte encoding

`u64::to_be_bytes` / `u32::to_be_bytes` and their `from_be_bytes` inverses,
modelled on `Nat`.  `leBytes` produces the little-endian digits; the
big-endian encoding is its reverse, and `beVal` folds big-endian bytes back
into a number (exactly `from_be_bytes`). -/

def leBytes : Nat → Nat → List Nat
  | 0, _ => []
  | w + 1, n => n % 256 :: leBytes w (n / 256)

/-- Big-endian encoding of `n` on `w` bytes, as `to_be_bytes` produces. -/
def beBytes (w n : Nat) : List Nat :=
  (leBytes w n).reverse

/-- Big-endian decoding of a byte list, as `from_be_bytes` computes. -/
def beVal (bs : List Nat) : Nat :=
  bs.foldl (fun acc b => acc * 256 + b) 0

/-! ### Buffer slices

`buffer[a..b].copy_from_slice(src)` on a `&mut [u8]`: the indexing panics
when `a > b` or `b > buffer.len()`, and `copy_from_slice` panics when the
source length differs from `b - a`.  `writeSlice` is the successful effect,
`readSlice` is `&buffer[off..off+len]` (always called in bounds by the
source). -/

def writeSlice (buf : List Nat) (off : Nat) (data : List Nat) : List Nat :=
  buf.take off ++ data ++ buf.drop (off + data.length)

def readSlice (buf : List Nat) (off len : Nat) : List Nat :=
  (buf.drop off).take len

def copy_from_slice (buf : List Nat) (start stop : Nat) (src : List Nat) :
    Option (List Nat) :=
  if start ≤ stop ∧ stop ≤ buf.length ∧ src.length = stop - start then
    some (writeSlice buf start src)
  else
    none

/-! ### Layout padding helpers (source lines 726-755) -/

/-- Source `gen_padding(alignment, remainder)`. -/
def gen_padding (alignment remainder : Nat) : Nat :=
  if remainder = 0 then 0 else alignment - remainder

/-- Source `padding_needed_from_size(offset, next_size)`: the alignment is
derived from the size by the `match` capping at 16. -/
def padding_needed_from_size (offset next_size : Nat) : Nat :=
  let alignment :=
    if next_size = 0 then 1
    else if next_size = 1 then 1
    else if next_size = 2 then 2
    else if next_size ≤ 4 then 4
    else if next_size ≤ 8 then 8
    else 16
  gen_padding alignment (offset % alignment)

/-- Source `padding_needed_from_type::<T>(offset)`; the Rust function reads
`mem::align_of::<T>()`, which the embedding takes as an explicit first
argument (`4` for `u32`, `8` for `u64` and `MetadataPage`, `1` for `bool`). -/
def padding_needed_from_type (alignment offset : Nat) : Nat :=
  gen_padding alignment (offset % alignment)

/-! ### PageType (source lines 47-86) -/

inductive PageType where
  | metadata
  | data
  | index
  | overflow
  | freeList
deriving DecidableEq, Repr

namespace PageType

/-- Discriminant of the Rust enum (`Metadata = 0`, …, `FreeList = 4`). -/
def tag : PageType → Nat
  | .metadata => 0
  | .data => 1
  | .index => 2
  | .overflow => 3
  | .freeList => 4

/-- Source `PageType::to_be_bytes`: one byte holding the discriminant. -/
def to_be_bytes (t : PageType) : List Nat :=
  [t.tag]

/-- Source `PageType::from_be_bytes`: the strict decoder, which panics
(`none`) for any tag byte outside 0..=4. -/
def from_be_bytes (b : Nat) : Option PageType :=
  if b = 0 then some .metadata
  else if b = 1 then some .data
  else if b = 2 then some .index
  else if b = 3 then some .overflow
  else if b = 4 then some .freeList
  else none

/-- Source `impl From<u16> for PageType`: the lenient conversion, which
substitutes `Data` for every unrecognized value. -/
def fromU16 (v : Nat) : PageType :=
  if v = 0 then .metadata
  else if v = 1 then .data
  else if v = 2 then .index
  else if v = 3 then .overflow
  else if v = 4 then .freeList
  else .data

end PageType

/-! ### PageHeader (source lines 99-183)

Layout of the `#[repr(C)]` struct `{ page_id: u64, page_type: PageType,
checksum: u32, lsn: u64, free_space_pointer: u32 }`:
`page_id` at 0..8, `page_type` at 8..9 (size 1), three padding bytes,
`checksum` at 12..16, `lsn` at 16..24, `free_space_pointer` at 24..28;
`size_of::<PageHeader>() = 32` (rounded up to the alignment 8). -/

structure PageHeader where
  page_id : Nat
  page_type : PageType
  checksum : Nat
  lsn : Nat
  free_space_pointer : Nat
deriving DecidableEq, Repr

namespace PageHeader

abbrev PAGE_ID_OFFSET : Nat := 0
abbrev PAGE_ID_SIZE : Nat := 8
abbrev PAGE_TYPE_OFFSET : Nat := 8
abbrev PAGE_TYPE_SIZE : Nat := 1
abbrev CHECKSUM_OFFSET : Nat := 12
abbrev CHECKSUM_SIZE : Nat := 4
abbrev LSN_OFFSET : Nat := 16
abbrev LSN_SIZE : Nat := 8
abbrev FREE_SPACE_POINTER_OFFSET : Nat := 24
abbrev FREE_SPACE_POINTER_SIZE : Nat := 4

/-- `PageHeader::SIZE` from the derive macro: `size_of::<PageHeader>()`. -/
abbrev SIZE : Nat := 32

/-- Source `PageHeader::size()`: `free_space_pointer_span().end = 28`. -/
abbrev size : Nat := FREE_SPACE_POINTER_OFFSET + FREE_SPACE_POINTER_SIZE

/-- Source `PageHeader::new`: checksum and lsn zero, free-space pointer at
`Self::SIZE`. -/
def new (page_id : Nat) (page_type : PageType) : PageHeader :=
  { page_id := page_id
    page_type := page_type
    checksum := 0
    lsn := 0
    free_space_pointer := SIZE }

/-- Source `PageHeader::serialize` (`impl MySerialize for PageHeader`):
writes the five fields big-endian at their spans and returns the number of
bytes written; panics (`none`) when the buffer is shorter than
`free_space_pointer_span().end`. -/
def serialize (h : PageHeader) (buffer : List Nat) : Option (List Nat × Nat) :=
  let size_to_write := size
  if buffer.length < size_to_write then none
  else
    match copy_from_slice buffer PAGE_ID_OFFSET (PAGE_ID_OFFSET + PAGE_ID_SIZE)
        (beBytes 8 h.page_id) with
    | none => none
    | some b1 =>
      match copy_from_slice b1 PAGE_TYPE_OFFSET (PAGE_TYPE_OFFSET + PAGE_TYPE_SIZE)
          h.page_type.to_be_bytes with
      | none => none
      | some b2 =>
        match copy_from_slice b2 CHECKSUM_OFFSET (CHECKSUM_OFFSET + CHECKSUM_SIZE)
            (beBytes 4 h.checksum) with
        | none => none
        | some b3 =>
          match copy_from_slice b3 LSN_OFFSET (LSN_OFFSET + LSN_SIZE)
              (beBytes 8 h.lsn) with
          | none => none
          | some b4 =>
            match copy_from_slice b4 FREE_SPACE_POINTER_OFFSET
                (FREE_SPACE_POINTER_OFFSET + FREE_SPACE_POINTER_SIZE)
                (beBytes 4 h.free_space_pointer) with
            | none => none
            | some b5 => some (b5, size_to_write)

/-- Source `PageHeader::deserialize`: panics (`none`) on a buffer shorter
than `free_space_pointer_span().end` and on a page-type byte outside 0..=4;
otherwise reads the five spans back. -/
def deserialize (buffer : List Nat) : Option PageHeader :=
  let size_to_read := size
  if buffer.length < size_to_read then none
  else
    match PageType.from_be_bytes
        (beVal (readSlice buffer PAGE_TYPE_OFFSET PAGE_TYPE_SIZE)) with
    | none => none
    | some page_type =>
      some
        { page_id := beVal (readSlice buffer PAGE_ID_OFFSET PAGE_ID_SIZE)
          page_type := page_type
          checksum := beVal (readSlice buffer CHECKSUM_OFFSET CHECKSUM_SIZE)
          lsn := beVal (readSlice buffer LSN_OFFSET LSN_SIZE)
          free_space_pointer :=
            beVal (readSlice buffer FREE_SPACE_POINTER_OFFSET FREE_SPACE_POINTER_SIZE) }

/-- The buffer `serialize` leaves on success: five slice writes in field
order. -/
def serializedBytes (h : PageHeader) (buffer : List Nat) : List Nat :=
  writeSlice
    (writeSlice
      (writeSlice
        (writeSlice
          (writeSlice buffer PAGE_ID_OFFSET (beBytes 8 h.page_id))
          PAGE_TYPE_OFFSET h.page_type.to_be_bytes)
        CHECKSUM_OFFSET (beBytes 4 h.checksum))
      LSN_OFFSET (beBytes 8 h.lsn))
    FREE_SPACE_POINTER_OFFSET (beBytes 4 h.free_space_pointer)

end PageHeader


/-! ### MetadataPage (source lines 185-240)

Layout of the `#[repr(C)]` struct `{ db_version: u32, page_size: u32,
root_page_id: u64, first_free_list_page: u64, total_pages: u64 }`:
0..4, 4..8, 8..16, 16..24, 24..32; total size 32. -/

/-- Source top-level `const DB_VERSION: u32 = 1`. -/
abbrev DB_VERSION : Nat := 1

structure MetadataPage where
  db_version : Nat
  page_size : Nat
  root_page_id : Nat
  first_free_list_page : Nat
  total_pages : Nat
deriving DecidableEq, Repr

namespace MetadataPage

abbrev DB_VERSION_OFFSET : Nat := 0
abbrev DB_VERSION_SIZE : Nat := 4
abbrev PAGE_SIZE_OFFSET : Nat := 4
abbrev PAGE_SIZE_SIZE : Nat := 4
abbrev ROOT_PAGE_ID_OFFSET : Nat := 8
abbrev ROOT_PAGE_ID_SIZE : Nat := 8
abbrev FIRST_FREE_LIST_PAGE_OFFSET : Nat := 16
abbrev FIRST_FREE_LIST_PAGE_SIZE : Nat := 8
abbrev TOTAL_PAGES_OFFSET : Nat := 24
abbrev TOTAL_PAGES_SIZE : Nat := 8
abbrev SIZE : Nat := 32

/-- Source `MetadataPage::intial_page` (name kept as in the source, which
spells it without the second letter i): version 1, zero roots, one page. -/
def intial_page (page_size : Nat) : MetadataPage :=
  { db_version := DB_VERSION
    page_size := page_size
    root_page_id := 0
    first_free_list_page := 0
    total_pages := 1 }

/-- Source `impl MySerialize for MetadataPage`: writes the five fields
big-endian at their spans; panics (`none`) when the buffer is shorter than
`total_pages_span().end = 32`. -/
def serialize (m : MetadataPage) (buffer : List Nat) : Option (List Nat × Nat) :=
  let size_to_write := TOTAL_PAGES_OFFSET + TOTAL_PAGES_SIZE
  if buffer.length < size_to_write then none
  else
    match copy_from_slice buffer DB_VERSION_OFFSET (DB_VERSION_OFFSET + DB_VERSION_SIZE)
        (beBytes 4 m.db_version) with
    | none => none
    | some b1 =>
      match copy_from_slice b1 PAGE_SIZE_OFFSET (PAGE_SIZE_OFFSET + PAGE_SIZE_SIZE)
          (beBytes 4 m.page_size) with
      | none => none
      | some b2 =>
        match copy_from_slice b2 ROOT_PAGE_ID_OFFSET
            (ROOT_PAGE_ID_OFFSET + ROOT_PAGE_ID_SIZE) (beBytes 8 m.root_page_id) with
        | none => none
        | some b3 =>
          match copy_from_slice b3 FIRST_FREE_LIST_PAGE_OFFSET
              (FIRST_FREE_LIST_PAGE_OFFSET + FIRST_FREE_LIST_PAGE_SIZE)
              (beBytes 8 m.first_free_list_page) with
          | none => none
          | some b4 =>
            match copy_from_slice b4 TOTAL_PAGES_OFFSET
                (TOTAL_PAGES_OFFSET + TOTAL_PAGES_SIZE) (beBytes 8 m.total_pages) with
            | none => none
            | some b5 => some (b5, size_to_write)

end MetadataPage

/-! ### PageWindow over a MetadataPage (source lines 26-45 and 229-240)

`PageWindow::new` splits page bytes at `PageHeader::SIZE` (panicking when
the page is shorter); the accessors below act on the post-split
`page_bytes` slice, panicking (`none`) when the span indexing would. -/

namespace PageWindow

/-- Source `PageWindow::<MetadataPage>::read_total_pages`. -/
def read_total_pages (page_bytes : List Nat) : Option Nat :=
  if MetadataPage.TOTAL_PAGES_OFFSET + MetadataPage.TOTAL_PAGES_SIZE ≤
      page_bytes.length then
    some (beVal (readSlice page_bytes MetadataPage.TOTAL_PAGES_OFFSET
      MetadataPage.TOTAL_PAGES_SIZE))
  else none

/-- Source `PageWindow::<MetadataPage>::update_total_pages`. -/
def update_total_pages (page_bytes : List Nat) (new_total_pages : Nat) :
    Option (List Nat) :=
  copy_from_slice page_bytes MetadataPage.TOTAL_PAGES_OFFSET
    (MetadataPage.TOTAL_PAGES_OFFSET + MetadataPage.TOTAL_PAGES_SIZE)
    (beBytes 8 new_total_pages)

end PageWindow

/-! ### DataPage (source lines 242-308)

`#[repr(C)]` struct `{ num_records: u32, slot_array: Vec<u32> }`: only
`num_records` gets layout constants (offset 0, size 4); the slot-array
constants are hand-written in the source. -/

structure DataPage where
  num_records : Nat
  slot_array : List Nat
deriving DecidableEq, Repr

namespace DataPage

abbrev NUM_RECORDS_OFFSET : Nat := 0
abbrev NUM_RECORDS_SIZE : Nat := 4
abbrev SLOT_ARRAY_LEN_SIZE : Nat := 4
abbrev SLOT_ARRAY_VALUE_SIZE : Nat := 4
abbrev SLOT_ARRAY_LEN_OFFSET : Nat := NUM_RECORDS_OFFSET + NUM_RECORDS_SIZE
abbrev SLOT_ARRAY_FIRST_VALUE_OFFSET : Nat :=
  padding_needed_from_type 4 (SLOT_ARRAY_LEN_OFFSET + SLOT_ARRAY_LEN_SIZE) +
    SLOT_ARRAY_LEN_OFFSET + SLOT_ARRAY_LEN_SIZE
abbrev MIN_SIZE : Nat := SLOT_ARRAY_FIRST_VALUE_OFFSET

/-- Source `DataPage::size`. -/
def size (dp : DataPage) : Nat :=
  MIN_SIZE + SLOT_ARRAY_VALUE_SIZE * dp.slot_array.length

/-- Source `DataPage::new`. -/
def new : DataPage :=
  { num_records := 0, slot_array := [] }

/-- The slot-writing loop of `DataPage::serialize`, returning the buffer and
the final `current_offset`. -/
def writeSlots : List Nat → List Nat → Nat → Option (List Nat × Nat)
  | [], buffer, current_offset => some (buffer, current_offset)
  | slot_offset :: rest, buffer, current_offset =>
    match copy_from_slice buffer current_offset
        (current_offset + SLOT_ARRAY_VALUE_SIZE) (beBytes 4 slot_offset) with
    | none => none
    | some buf' => writeSlots rest buf' (current_offset + SLOT_ARRAY_VALUE_SIZE)

/-- Source `impl MySerialize for DataPage`: `num_records`, the slot-array
length as u32, then the slots; the trailing `assert!(size == current_offset)`
is kept as a check. -/
def serialize (dp : DataPage) (buffer : List Nat) : Option (List Nat × Nat) :=
  let size := dp.size
  if buffer.length < size then none
  else
    match copy_from_slice buffer NUM_RECORDS_OFFSET
        (NUM_RECORDS_OFFSET + NUM_RECORDS_SIZE) (beBytes 4 dp.num_records) with
    | none => none
    | some b1 =>
      match copy_from_slice b1 SLOT_ARRAY_LEN_OFFSET
          (SLOT_ARRAY_LEN_OFFSET + SLOT_ARRAY_LEN_SIZE)
          (beBytes 4 dp.slot_array.length) with
      | none => none
      | some b2 =>
        match writeSlots dp.slot_array b2 SLOT_ARRAY_FIRST_VALUE_OFFSET with
        | none => none
        | some (b3, current_offset) =>
          if size = current_offset then some (b3, size) else none

end DataPage

/-! ### IndexPage (source lines 310-450)

`#[repr(C)]` struct `{ is_leaf: bool, next_leaf: u64, keys: Vec<Vec<u8>>,
child_pointers: Vec<u64> }`: `is_leaf` at 0..1, `next_leaf` at 8..16; the
vector constants are hand-written in the source. -/

structure IndexPage where
  is_leaf : Bool
  next_leaf : Nat
  keys : List (List Nat)
  child_pointers : List Nat
deriving DecidableEq, Repr

namespace IndexPage

abbrev IS_LEAF_OFFSET : Nat := 0
abbrev IS_LEAF_SIZE : Nat := 1
abbrev NEXT_LEAF_OFFSET : Nat := 8
abbrev NEXT_LEAF_SIZE : Nat := 8
abbrev KEYS_LEN_SIZE : Nat := 4
abbrev CHILD_POINTERS_LEN_SIZE : Nat := 4
abbrev CHILD_POINTERS_VALUE_SIZE : Nat := 8
abbrev KEYS_LEN_OFFSET : Nat :=
  padding_needed_from_type 4 (NEXT_LEAF_OFFSET + NEXT_LEAF_SIZE) +
    NEXT_LEAF_OFFSET + NEXT_LEAF_SIZE
abbrev KEYS_FIRST_VALUE_OFFSET_WITHOUT_PADDING : Nat :=
  KEYS_LEN_OFFSET + KEYS_LEN_SIZE
abbrev EXCLUDING_VEC_SIZE : Nat := KEYS_LEN_OFFSET

/-- Source `IndexPage::key_value_size`: the length of the first key. -/
def key_value_size (p : IndexPage) : Option Nat :=
  p.keys.head?.map List.length

/-- Source `IndexPage::new`. -/
def new (is_leaf : Bool) : IndexPage :=
  { is_leaf := is_leaf, next_leaf := 0, keys := [], child_pointers := [] }

/-- Source `IndexPage::calc_size`, replicated decision for decision. -/
def calc_size (p : IndexPage) : Nat :=
  let size_of_key_vec :=
    match p.key_value_size with
    | some key_size =>
      let total_size_of_keys := key_size * p.keys.length
      let padding_to_first_key :=
        padding_needed_from_size EXCLUDING_VEC_SIZE key_size
      let total_padding_between_keys :=
        padding_needed_from_size key_size key_size * (p.keys.length - 1)
      total_size_of_keys + padding_to_first_key + total_padding_between_keys
    | none => 0
  let offset_after_key_vec := EXCLUDING_VEC_SIZE + size_of_key_vec
  let offset_after_child_pointers_key_len :=
    padding_needed_from_type 4 offset_after_key_vec + offset_after_key_vec +
      CHILD_POINTERS_LEN_SIZE
  let padding_to_first_child_pointer :=
    padding_needed_from_type 8 offset_after_child_pointers_key_len
  offset_after_child_pointers_key_len + padding_to_first_child_pointer +
    CHILD_POINTERS_VALUE_SIZE * p.child_pointers.length

/-- The key-writing loop of `IndexPage::serialize`: pads each key to its own
length's alignment before writing it; panics (`none`) on a key whose length
differs from `key_value_size` or when no key size exists. -/
def writeKeys : Option Nat → List (List Nat) → List Nat → Nat →
    Option (List Nat × Nat)
  | _, [], buffer, current_key_offset => some (buffer, current_key_offset)
  | key_size_opt, key :: rest, buffer, current_key_offset =>
    match key_size_opt with
    | some key_size =>
      if key_size = key.length then
        let off := current_key_offset +
          padding_needed_from_size current_key_offset key_size
        match copy_from_slice buffer off (off + key_size) key with
        | none => none
        | some buf' => writeKeys key_size_opt rest buf' (off + key_size)
      else none
    | none => none

/-- The child-pointer loop of `IndexPage::serialize`. -/
def writePointers : List Nat → List Nat → Nat → Option (List Nat × Nat)
  | [], buffer, offset => some (buffer, offset)
  | child_pointer :: rest, buffer, offset =>
    match copy_from_slice buffer offset (offset + CHILD_POINTERS_VALUE_SIZE)
        (beBytes 8 child_pointer) with
    | none => none
    | some buf' => writePointers rest buf' (offset + CHILD_POINTERS_VALUE_SIZE)

/-- Source `impl MySerialize for IndexPage`.  Two slips of the source are
kept exactly as written there: the keys-length write slices
`buffer[KEYS_LEN_OFFSET..KEYS_LEN_SIZE]` (an inverted `16..4` range), and
both vector lengths are written from `usize::to_be_bytes` (8 bytes) into
4-byte spans; each is an unconditional panic at run time. -/
def serialize (p : IndexPage) (buffer : List Nat) : Option (List Nat × Nat) :=
  let size := p.calc_size
  if buffer.length < size then none
  else
    match copy_from_slice buffer IS_LEAF_OFFSET (IS_LEAF_OFFSET + IS_LEAF_SIZE)
        [if p.is_leaf then 1 else 0] with
    | none => none
    | some b1 =>
      match copy_from_slice b1 NEXT_LEAF_OFFSET (NEXT_LEAF_OFFSET + NEXT_LEAF_SIZE)
          (beBytes 8 p.next_leaf) with
      | none => none
      | some b2 =>
        match copy_from_slice b2 KEYS_LEN_OFFSET KEYS_LEN_SIZE
            (beBytes 8 p.keys.length) with
        | none => none
        | some b3 =>
          match writeKeys p.key_value_size p.keys b3
              KEYS_FIRST_VALUE_OFFSET_WITHOUT_PADDING with
          | none => none
          | some (b4, key_end) =>
            let current_key_offset :=
              key_end + padding_needed_from_type 4 key_end
            match copy_from_slice b4 current_key_offset
                (current_key_offset + CHILD_POINTERS_LEN_SIZE)
                (beBytes 8 p.child_pointers.length) with
            | none => none
            | some b5 =>
              let cpo0 := current_key_offset + CHILD_POINTERS_LEN_SIZE
              let cpo := cpo0 + padding_needed_from_type 8 cpo0
              match writePointers p.child_pointers b5 cpo with
              | none => none
              | some (b6, final_offset) =>
                if size = final_offset then some (b6, size) else none

end IndexPage


/-! ### Buffer Pool and Paged File Manager (source lines 502-724)

The `HashMap<u64, Vec<u8>>` buffer pool is modelled as an association list
with distinct keys; `cache.keys().next()` (the arbitrary key the eviction
picks) is modelled as the list head.  The backing `File` is a byte list;
seeking past the end and writing zero-fills the gap, as the OS does. -/

abbrev Cache := List (Nat × List Nat)

def cacheContains (cache : Cache) (page_id : Nat) : Bool :=
  cache.any (fun e => e.1 == page_id)

def cacheLookup (cache : Cache) (page_id : Nat) : Option (List Nat) :=
  (cache.find? (fun e => e.1 == page_id)).map (fun e => e.2)

/-- `HashMap` entry overwrite at a present key (the effect of mutating the
`&mut Vec<u8>` a lookup returns). -/
def cacheSet (cache : Cache) (page_id : Nat) (v : List Nat) : Cache :=
  cache.map (fun e => if e.1 = page_id then (page_id, v) else e)

structure PagedFileManager where
  file : List Nat
  page_size : Nat
  buffer_pool : Cache
  max_cache_size : Nat
deriving DecidableEq, Repr

namespace PagedFileManager

abbrev METADATA_PAGE_ID : Nat := 0

/-- Source `PagedFileManagerConfigBuilder::DEFAULT_PAGE_SIZE`. -/
abbrev DEFAULT_PAGE_SIZE : Nat := 4096

/-- Source `PagedFileManagerConfigBuilder::DEFAULT_MAX_CACHE_SIZE`. -/
abbrev DEFAULT_MAX_CACHE_SIZE : Nat := 100

/-- Source `PagedFileManager::read_page`: an unconditional disk read of
`page_size` bytes at `page_id * page_size`; `none` is the I/O failure of
`read_exact` past the end of the file. -/
def read_page (file : List Nat) (page_id : Nat) (page_size : Nat) :
    Option (List Nat) :=
  if page_id * page_size + page_size ≤ file.length then
    some (readSlice file (page_id * page_size) page_size)
  else none

/-- Source `PagedFileManager::write_page`: seeks to `page_id * page_size`
(zero-filling any gap past the current end, as the OS does) and writes the
given bytes. -/
def write_page (file : List Nat) (page_size : Nat) (page_id : Nat)
    (data : List Nat) : List Nat :=
  let off := page_id * page_size
  let padded :=
    if file.length < off then file ++ List.replicate (off - file.length) 0
    else file
  padded.take off ++ data ++ padded.drop (off + data.length)

/-- Source `PagedFileManager::load_into_buffer_pool`: on a miss the loader
result is inserted, evicting an arbitrary entry (modelled as the head) when
the pool already holds `max_cache_size` or more entries; the final
`cache.get_mut(&page_id).unwrap()` is the returned byte buffer.  The
`loader` closure's outcome is passed as an `Option` value. -/
def load_into_buffer_pool (cache : Cache) (max_cache_size : Nat)
    (page_id : Nat) (loader : Option (List Nat)) :
    Option (Cache × List Nat) :=
  if cacheContains cache page_id then
    match cacheLookup cache page_id with
    | none => none
    | some bytes => some (cache, bytes)
  else
    match loader with
    | none => none
    | some page_data =>
      let evicted :=
        if max_cache_size ≤ cache.length then cache.tail else cache
      let inserted := evicted ++ [(page_id, page_data)]
      match cacheLookup inserted page_id with
      | none => none
      | some bytes => some (inserted, bytes)

/-- Source `PagedFileManager::initialize_file` (named `init_file` here):
serializes a fresh Metadata header and then computes
`metadata_offset = padding_needed_from_type::<MetadataPage>(end_of_header)`
— the padding alone, with `align_of::<MetadataPage>() = 8` — and asserts it
equals `PageHeader::SIZE` before serializing the metadata body at that
offset; a failed assert is `none`. -/
def init_file (page_size : Nat) : Option (List Nat) :=
  let page_buffer := List.replicate page_size 0
  match PageHeader.serialize (PageHeader.new METADATA_PAGE_ID PageType.metadata)
      page_buffer with
  | none => none
  | some (buf, end_of_header) =>
    let metadata_offset := padding_needed_from_type 8 end_of_header
    if metadata_offset = PageHeader.SIZE then
      match MetadataPage.serialize (MetadataPage.intial_page page_size)
          (buf.drop metadata_offset) with
      | none => none
      | some (body, _) => some (buf.take metadata_offset ++ body)
    else none

/-- Source `PagedFileManager::new`: opens (here: receives) the backing file
content; on an empty file it writes page 0 through `initialize_file`. -/
def pfm_new (existing : List Nat) (page_size : Nat) (max_cache_size : Nat) :
    Option PagedFileManager :=
  if existing.length = 0 then
    (init_file page_size).map fun f =>
      { file := f
        page_size := page_size
        buffer_pool := []
        max_cache_size := max_cache_size }
  else
    some
      { file := existing
        page_size := page_size
        buffer_pool := []
        max_cache_size := max_cache_size }

/-- Source `PagedFileManager::allocate_page`: loads page 0 through the
buffer pool, reads `total_pages` through a `PageWindow` (whose constructor
panics on fewer than `PageHeader::SIZE` bytes), writes `total_pages + 1`
back, then writes the updated metadata page and a zero-filled page at
`new_page_id * page_size`.  The source's `mem::take(page_bytes)` leaves
`Vec::default()` — an empty buffer — in the cache entry for page 0, which
the model reproduces with `cacheSet`. -/
def allocate_page (m : PagedFileManager) : Option (PagedFileManager × Nat) :=
  match load_into_buffer_pool m.buffer_pool m.max_cache_size METADATA_PAGE_ID
      (read_page m.file METADATA_PAGE_ID m.page_size) with
  | none => none
  | some (cache1, page_bytes) =>
    if page_bytes.length < PageHeader.SIZE then none
    else
      match PageWindow.read_total_pages (page_bytes.drop PageHeader.SIZE) with
      | none => none
      | some total_pages =>
        let new_page_id := total_pages + 1
        match PageWindow.update_total_pages (page_bytes.drop PageHeader.SIZE)
            new_page_id with
        | none => none
        | some body' =>
          let updated := page_bytes.take PageHeader.SIZE ++ body'
          let cache2 := cacheSet cache1 METADATA_PAGE_ID []
          let file1 := write_page m.file m.page_size METADATA_PAGE_ID updated
          let file2 := write_page file1 m.page_size new_page_id
            (List.replicate m.page_size 0)
          some ({ m with file := file2, buffer_pool := cache2 }, new_page_id)

/-- The free-space pointer `create_data_page` assigns before serializing:
the padded header end plus the empty DataPage's size (source lines
682-686). -/
def data_page_initial_fsp : Nat :=
  (PageHeader.size + padding_needed_from_type 4 PageHeader.size) +
    DataPage.new.size

/-- The free-space pointer `create_index_page` assigns before serializing
(source lines 708-711). -/
def index_page_initial_fsp (is_leaf : Bool) : Nat :=
  (PageHeader.size + padding_needed_from_type 1 PageHeader.size) +
    (IndexPage.new is_leaf).calc_size

/-- Source `PagedFileManager::create_data_page`: allocates a page id,
serializes a Data header and an empty DataPage body into one page buffer,
and asserts `final_offset == header.free_space_pointer` — comparing the
offset returned by `DataPage::serialize` (relative to the body slice)
against the absolute free-space pointer — before writing the page. -/
def create_data_page (m : PagedFileManager) : Option (PagedFileManager × Nat) :=
  match allocate_page m with
  | none => none
  | some (m1, page_id) =>
    let page_buffer := List.replicate m1.page_size 0
    let data_page := DataPage.new
    let data_page_offset :=
      PageHeader.size + padding_needed_from_type 4 PageHeader.size
    let header :=
      { PageHeader.new page_id PageType.data with
          free_space_pointer := data_page_offset + data_page.size }
    match PageHeader.serialize header page_buffer with
    | none => none
    | some (buf1, initial_offset) =>
      let offset_with_padding :=
        initial_offset + padding_needed_from_type 4 initial_offset
      if offset_with_padding = data_page_offset then
        match DataPage.serialize data_page (buf1.drop offset_with_padding) with
        | none => none
        | some (buf2, final_offset) =>
          if final_offset = header.free_space_pointer then
            some ({ m1 with
              file := write_page m1.file m1.page_size page_id
                (buf1.take offset_with_padding ++ buf2) }, page_id)
          else none
      else none

/-- Source `PagedFileManager::create_index_page`, the Index analogue of
`create_data_page` (with `bool` alignment for the body padding). -/
def create_index_page (m : PagedFileManager) (is_leaf : Bool) :
    Option (PagedFileManager × Nat) :=
  match allocate_page m with
  | none => none
  | some (m1, page_id) =>
    let page_buffer := List.replicate m1.page_size 0
    let index_page := IndexPage.new is_leaf
    let index_page_offset :=
      PageHeader.size + padding_needed_from_type 1 PageHeader.size
    let header :=
      { PageHeader.new page_id PageType.index with
          free_space_pointer := index_page_offset + index_page.calc_size }
    match PageHeader.serialize header page_buffer with
    | none => none
    | some (buf1, initial_offset) =>
      let offset_with_padding :=
        initial_offset + padding_needed_from_type 1 initial_offset
      if offset_with_padding = index_page_offset then
        match IndexPage.serialize index_page (buf1.drop offset_with_padding) with
        | none => none
        | some (buf2, final_size) =>
          if final_size = header.free_space_pointer then
            some ({ m1 with
              file := write_page m1.file m1.page_size page_id
                (buf1.take offset_with_padding ++ buf2) }, page_id)
          else none
      else none

end PagedFileManager

/-! ### A well-formed demonstration state

A 64-byte-page file whose page 0 carries `total_pages = 1` in the metadata
span (bytes 56..64), paired with an empty buffer pool: the state a correctly
initialized one-page file would present. -/

def demoFile : List Nat :=
  List.replicate 56 0 ++ beBytes 8 1

def stDemo : PagedFileManager :=
  { file := demoFile, page_size := 64, buffer_pool := [], max_cache_size := 100 }

/-! ### Arithmetic and slice lemmas -/

theorem leBytes_length (w n : Nat) : (leBytes w n).length = w := by
  induction w generalizing n with
  | zero => rfl
  | succ k ih => simp [leBytes, ih]

theorem beBytes_length (w n : Nat) : (beBytes w n).length = w := by
  simp [beBytes, leBytes_length]

theorem beVal_append_singleton (l : List Nat) (b : Nat) :
    beVal (l ++ [b]) = beVal l * 256 + b := by
  simp [beVal, List.foldl_append]

theorem beVal_beBytes (w n : Nat) : beVal (beBytes w n) = n % 256 ^ w := by
  induction w generalizing n with
  | zero => simp [beBytes, leBytes, beVal, Nat.mod_one]
  | succ k ih =>
    have h1 : beBytes (k + 1) n = beBytes k (n / 256) ++ [n % 256] := by
      simp [beBytes, leBytes]
    rw [h1, beVal_append_singleton, ih]
    have h256 : (0:Nat) < 256 ^ k := Nat.pos_pow_of_pos k (by norm_num)
    have hdecomp : n / 256 % 256 ^ k * 256 + n % 256 =
        n % (256 ^ k * 256) := by
      have hq := Nat.div_add_mod (n / 256) (256 ^ k)
      have hr := Nat.div_add_mod n 256
      have hlt1 : n / 256 % 256 ^ k < 256 ^ k := Nat.mod_lt _ h256
      have hlt2 : n % 256 < 256 := Nat.mod_lt _ (by norm_num)
      have hval : n = 256 ^ k * 256 * (n / 256 / 256 ^ k) +
          (n / 256 % 256 ^ k * 256 + n % 256) := by
        calc n = 256 * (n / 256) + n % 256 := by omega
        _ = 256 * (256 ^ k * (n / 256 / 256 ^ k) + n / 256 % 256 ^ k) + n % 256 := by
              rw [hq]
        _ = 256 ^ k * 256 * (n / 256 / 256 ^ k) +
            (n / 256 % 256 ^ k * 256 + n % 256) := by ring
      conv_rhs => rw [hval]
      rw [Nat.mul_add_mod]
      exact (Nat.mod_eq_of_lt (by nlinarith)).symm
    rw [hdecomp, pow_succ]

theorem beVal_beBytes_of_lt (w n : Nat) (h : n < 256 ^ w) :
    beVal (beBytes w n) = n := by
  rw [beVal_beBytes, Nat.mod_eq_of_lt h]

theorem beVal_singleton (b : Nat) : beVal [b] = b := by
  simp [beVal]

theorem writeSlice_length (buf : List Nat) (off : Nat) (d : List Nat)
    (h : off + d.length ≤ buf.length) :
    (writeSlice buf off d).length = buf.length := by
  simp [writeSlice]
  omega

theorem readSlice_writeSlice_self (buf : List Nat) (off : Nat) (d : List Nat)
    (h : off + d.length ≤ buf.length) :
    readSlice (writeSlice buf off d) off d.length = d := by
  unfold readSlice writeSlice
  have htk : (buf.take off).length = off := by
    simp
    omega
  rw [List.append_assoc, List.drop_left' htk, List.take_left]

theorem readSlice_writeSlice_before (buf : List Nat) (off : Nat) (d : List Nat)
    (ro rl : Nat) (h1 : ro + rl ≤ off) (h2 : off + d.length ≤ buf.length) :
    readSlice (writeSlice buf off d) ro rl = readSlice buf ro rl := by
  unfold readSlice writeSlice
  rw [List.append_assoc, List.drop_append_eq_append_drop,
    List.take_append_eq_append_take]
  have htk : (buf.take off).length = off := by simp; omega
  have hdl : ((buf.take off).drop ro).length = off - ro := by simp; omega
  have h3 : ro - (buf.take off).length = 0 := by omega
  have h4 : rl - ((buf.take off).drop ro).length = 0 := by omega
  rw [h3, h4, List.take_zero, List.append_nil, List.drop_take]
  rw [List.take_take, min_eq_left (by omega)]

theorem readSlice_writeSlice_after (buf : List Nat) (off : Nat) (d : List Nat)
    (ro rl : Nat) (h1 : off + d.length ≤ ro) (h2 : off + d.length ≤ buf.length) :
    readSlice (writeSlice buf off d) ro rl = readSlice buf ro rl := by
  unfold readSlice writeSlice
  have htk : (buf.take off).length = off := by simp; omega
  have h3 : (buf.take off).drop ro = [] := List.drop_eq_nil_of_le (by omega)
  have h4 : d.drop (ro - (buf.take off).length) = [] :=
    List.drop_eq_nil_of_le (by omega)
  rw [List.append_assoc, List.drop_append_eq_append_drop, h3, List.nil_append,
    List.drop_append_eq_append_drop, h4, List.nil_append, List.drop_drop]
  have hidx : off + d.length + (ro - (buf.take off).length - d.length) = ro := by
    omega
  rw [hidx]

theorem copy_from_slice_eq_some (buf : List Nat) (start stop : Nat)
    (src : List Nat) (h1 : start ≤ stop) (h2 : stop ≤ buf.length)
    (h3 : src.length = stop - start) :
    copy_from_slice buf start stop src = some (writeSlice buf start src) := by
  simp [copy_from_slice, h1, h2, h3]

theorem readSlice_writeSlice_self' (buf : List Nat) (off : Nat) (d : List Nat)
    (rl : Nat) (hrl : rl = d.length) (h : off + d.length ≤ buf.length) :
    readSlice (writeSlice buf off d) off rl = d := by
  subst hrl
  exact readSlice_writeSlice_self buf off d h

theorem PageType.to_be_bytes_length (t : PageType) : t.to_be_bytes.length = 1 := by
  cases t <;> rfl

theorem PageType.from_be_bytes_tag (t : PageType) :
    PageType.from_be_bytes t.tag = some t := by
  cases t <;> rfl

theorem PageHeader.serialize_eq (h : PageHeader) (buffer : List Nat)
    (hlen : PageHeader.size ≤ buffer.length) :
    PageHeader.serialize h buffer =
      some (PageHeader.serializedBytes h buffer, PageHeader.size) := by
  have h28 : (28 : Nat) ≤ buffer.length := hlen
  have e1 : copy_from_slice buffer PageHeader.PAGE_ID_OFFSET
      (PageHeader.PAGE_ID_OFFSET + PageHeader.PAGE_ID_SIZE) (beBytes 8 h.page_id) =
      some (writeSlice buffer PageHeader.PAGE_ID_OFFSET (beBytes 8 h.page_id)) :=
    copy_from_slice_eq_some _ _ _ _ (by decide)
      (le_trans (by decide) h28) (by simp [beBytes_length])
  have hl1 : (writeSlice buffer PageHeader.PAGE_ID_OFFSET
      (beBytes 8 h.page_id)).length = buffer.length :=
    writeSlice_length _ _ _ (by simp [beBytes_length]; omega)
  set b1 := writeSlice buffer PageHeader.PAGE_ID_OFFSET (beBytes 8 h.page_id)
    with hb1
  have e2 : copy_from_slice b1 PageHeader.PAGE_TYPE_OFFSET
      (PageHeader.PAGE_TYPE_OFFSET + PageHeader.PAGE_TYPE_SIZE)
      h.page_type.to_be_bytes =
      some (writeSlice b1 PageHeader.PAGE_TYPE_OFFSET h.page_type.to_be_bytes) :=
    copy_from_slice_eq_some _ _ _ _ (by decide)
      (by rw [hl1]; exact le_trans (by decide) h28)
      (by simp [PageType.to_be_bytes_length])
  have hl2 : (writeSlice b1 PageHeader.PAGE_TYPE_OFFSET
      h.page_type.to_be_bytes).length = buffer.length := by
    rw [writeSlice_length]
    · exact hl1
    · rw [hl1, PageType.to_be_bytes_length]
      exact le_trans (by decide) h28
  set b2 := writeSlice b1 PageHeader.PAGE_TYPE_OFFSET h.page_type.to_be_bytes
    with hb2
  have e3 : copy_from_slice b2 PageHeader.CHECKSUM_OFFSET
      (PageHeader.CHECKSUM_OFFSET + PageHeader.CHECKSUM_SIZE)
      (beBytes 4 h.checksum) =
      some (writeSlice b2 PageHeader.CHECKSUM_OFFSET (beBytes 4 h.checksum)) :=
    copy_from_slice_eq_some _ _ _ _ (by decide)
      (by rw [hl2]; exact le_trans (by decide) h28) (by simp [beBytes_length])
  have hl3 : (writeSlice b2 PageHeader.CHECKSUM_OFFSET
      (beBytes 4 h.checksum)).length = buffer.length := by
    rw [writeSlice_length]
    · exact hl2
    · rw [hl2, beBytes_length]
      exact le_trans (by decide) h28
  set b3 := writeSlice b2 PageHeader.CHECKSUM_OFFSET (beBytes 4 h.checksum)
    with hb3
  have e4 : copy_from_slice b3 PageHeader.LSN_OFFSET
      (PageHeader.LSN_OFFSET + PageHeader.LSN_SIZE) (beBytes 8 h.lsn) =
      some (writeSlice b3 PageHeader.LSN_OFFSET (beBytes 8 h.lsn)) :=
    copy_from_slice_eq_some _ _ _ _ (by decide)
      (by rw [hl3]; exact le_trans (by decide) h28) (by simp [beBytes_length])
  have hl4 : (writeSlice b3 PageHeader.LSN_OFFSET
      (beBytes 8 h.lsn)).length = buffer.length := by
    rw [writeSlice_length]
    · exact hl3
    · rw [hl3, beBytes_length]
      exact le_trans (by decide) h28
  set b4 := writeSlice b3 PageHeader.LSN_OFFSET (beBytes 8 h.lsn) with hb4
  have e5 : copy_from_slice b4 PageHeader.FREE_SPACE_POINTER_OFFSET
      (PageHeader.FREE_SPACE_POINTER_OFFSET + PageHeader.FREE_SPACE_POINTER_SIZE)
      (beBytes 4 h.free_space_pointer) =
      some (writeSlice b4 PageHeader.FREE_SPACE_POINTER_OFFSET
        (beBytes 4 h.free_space_pointer)) :=
    copy_from_slice_eq_some _ _ _ _ (by decide)
      (by rw [hl4]; exact le_trans (by decide) h28) (by simp [beBytes_length])
  unfold serialize
  rw [if_neg (by omega)]
  simp only [e1, e2, e3, e4, e5]
  rfl

theorem beVal_to_be_bytes (t : PageType) : beVal t.to_be_bytes = t.tag := by
  cases t <;> rfl

/-- Auxiliary facts about the buffer `PageHeader::serialize` produces: its
length is unchanged and every field span reads back the bytes written
there. -/
theorem PageHeader.serializedBytes_spec (h : PageHeader) (buffer : List Nat)
    (hlen : PageHeader.size ≤ buffer.length) :
    (PageHeader.serializedBytes h buffer).length = buffer.length ∧
    readSlice (PageHeader.serializedBytes h buffer) PageHeader.PAGE_ID_OFFSET
      PageHeader.PAGE_ID_SIZE = beBytes 8 h.page_id ∧
    readSlice (PageHeader.serializedBytes h buffer) PageHeader.PAGE_TYPE_OFFSET
      PageHeader.PAGE_TYPE_SIZE = h.page_type.to_be_bytes ∧
    readSlice (PageHeader.serializedBytes h buffer) PageHeader.CHECKSUM_OFFSET
      PageHeader.CHECKSUM_SIZE = beBytes 4 h.checksum ∧
    readSlice (PageHeader.serializedBytes h buffer) PageHeader.LSN_OFFSET
      PageHeader.LSN_SIZE = beBytes 8 h.lsn ∧
    readSlice (PageHeader.serializedBytes h buffer)
      PageHeader.FREE_SPACE_POINTER_OFFSET PageHeader.FREE_SPACE_POINTER_SIZE =
      beBytes 4 h.free_space_pointer := by
  have h28 : (28 : Nat) ≤ buffer.length := hlen
  have hl1 : (writeSlice buffer PageHeader.PAGE_ID_OFFSET (beBytes 8 h.page_id)).length = buffer.length :=
    writeSlice_length _ _ _ (by simp [beBytes_length]; omega)
  have hl2 : (writeSlice (writeSlice buffer PageHeader.PAGE_ID_OFFSET (beBytes 8 h.page_id)) PageHeader.PAGE_TYPE_OFFSET h.page_type.to_be_bytes).length = buffer.length := by
    rw [writeSlice_length]
    · exact hl1
    · rw [hl1, PageType.to_be_bytes_length]
      exact le_trans (by decide) h28
  have hl3 : (writeSlice (writeSlice (writeSlice buffer PageHeader.PAGE_ID_OFFSET (beBytes 8 h.page_id)) PageHeader.PAGE_TYPE_OFFSET h.page_type.to_be_bytes) PageHeader.CHECKSUM_OFFSET (beBytes 4 h.checksum)).length = buffer.length := by
    rw [writeSlice_length]
    · exact hl2
    · rw [hl2, beBytes_length]
      exact le_trans (by decide) h28
  have hl4 : (writeSlice (writeSlice (writeSlice (writeSlice buffer PageHeader.PAGE_ID_OFFSET (beBytes 8 h.page_id)) PageHeader.PAGE_TYPE_OFFSET h.page_type.to_be_bytes) PageHeader.CHECKSUM_OFFSET (beBytes 4 h.checksum)) PageHeader.LSN_OFFSET (beBytes 8 h.lsn)).length = buffer.length := by
    rw [writeSlice_length]
    · exact hl3
    · rw [hl3, beBytes_length]
      exact le_trans (by decide) h28
  have hl5 : (writeSlice (writeSlice (writeSlice (writeSlice (writeSlice buffer PageHeader.PAGE_ID_OFFSET (beBytes 8 h.page_id)) PageHeader.PAGE_TYPE_OFFSET h.page_type.to_be_bytes) PageHeader.CHECKSUM_OFFSET (beBytes 4 h.checksum)) PageHeader.LSN_OFFSET (beBytes 8 h.lsn)) PageHeader.FREE_SPACE_POINTER_OFFSET (beBytes 4 h.free_space_pointer)).length = buffer.length := by
    rw [writeSlice_length]
    · exact hl4
    · rw [hl4, beBytes_length]
      exact le_trans (by decide) h28
  have hr_pid : readSlice (writeSlice (writeSlice (writeSlice (writeSlice (writeSlice buffer PageHeader.PAGE_ID_OFFSET (beBytes 8 h.page_id)) PageHeader.PAGE_TYPE_OFFSET h.page_type.to_be_bytes) PageHeader.CHECKSUM_OFFSET (beBytes 4 h.checksum)) PageHeader.LSN_OFFSET (beBytes 8 h.lsn)) PageHeader.FREE_SPACE_POINTER_OFFSET (beBytes 4 h.free_space_pointer)) PageHeader.PAGE_ID_OFFSET PageHeader.PAGE_ID_SIZE =
      beBytes 8 h.page_id := by
    rw [readSlice_writeSlice_before]
    · rw [readSlice_writeSlice_before]
      · rw [readSlice_writeSlice_before]
        · rw [readSlice_writeSlice_before]
          · rw [readSlice_writeSlice_self']
            · rw [beBytes_length]
            · rw [beBytes_length]
              exact le_trans (by decide) h28
          · decide
          · rw [PageType.to_be_bytes_length, hl1]
            exact le_trans (by decide) h28
        · decide
        · rw [beBytes_length, hl2]
          exact le_trans (by decide) h28
      · decide
      · rw [beBytes_length, hl3]
        exact le_trans (by decide) h28
    · decide
    · rw [beBytes_length, hl4]
      exact le_trans (by decide) h28
  have hr_tag : readSlice (writeSlice (writeSlice (writeSlice (writeSlice (writeSlice buffer PageHeader.PAGE_ID_OFFSET (beBytes 8 h.page_id)) PageHeader.PAGE_TYPE_OFFSET h.page_type.to_be_bytes) PageHeader.CHECKSUM_OFFSET (beBytes 4 h.checksum)) PageHeader.LSN_OFFSET (beBytes 8 h.lsn)) PageHeader.FREE_SPACE_POINTER_OFFSET (beBytes 4 h.free_space_pointer)) PageHeader.PAGE_TYPE_OFFSET PageHeader.PAGE_TYPE_SIZE =
      h.page_type.to_be_bytes := by
    rw [readSlice_writeSlice_before]
    · rw [readSlice_writeSlice_before]
      · rw [readSlice_writeSlice_before]
        · rw [readSlice_writeSlice_self']
          · rw [PageType.to_be_bytes_length]
          · rw [PageType.to_be_bytes_length, hl1]
            exact le_trans (by decide) h28
        · decide
        · rw [beBytes_length, hl2]
          exact le_trans (by decide) h28
      · decide
      · rw [beBytes_length, hl3]
        exact le_trans (by decide) h28
    · decide
    · rw [beBytes_length, hl4]
      exact le_trans (by decide) h28
  have hr_ck : readSlice (writeSlice (writeSlice (writeSlice (writeSlice (writeSlice buffer PageHeader.PAGE_ID_OFFSET (beBytes 8 h.page_id)) PageHeader.PAGE_TYPE_OFFSET h.page_type.to_be_bytes) PageHeader.CHECKSUM_OFFSET (beBytes 4 h.checksum)) PageHeader.LSN_OFFSET (beBytes 8 h.lsn)) PageHeader.FREE_SPACE_POINTER_OFFSET (beBytes 4 h.free_space_pointer)) PageHeader.CHECKSUM_OFFSET PageHeader.CHECKSUM_SIZE =
      beBytes 4 h.checksum := by
    rw [readSlice_writeSlice_before]
    · rw [readSlice_writeSlice_before]
      · rw [readSlice_writeSlice_self']
        · rw [beBytes_length]
        · rw [beBytes_length, hl2]
          exact le_trans (by decide) h28
      · decide
      · rw [beBytes_length, hl3]
        exact le_trans (by decide) h28
    · decide
    · rw [beBytes_length, hl4]
      exact le_trans (by decide) h28
  have hr_lsn : readSlice (writeSlice (writeSlice (writeSlice (writeSlice (writeSlice buffer PageHeader.PAGE_ID_OFFSET (beBytes 8 h.page_id)) PageHeader.PAGE_TYPE_OFFSET h.page_type.to_be_bytes) PageHeader.CHECKSUM_OFFSET (beBytes 4 h.checksum)) PageHeader.LSN_OFFSET (beBytes 8 h.lsn)) PageHeader.FREE_SPACE_POINTER_OFFSET (beBytes 4 h.free_space_pointer)) PageHeader.LSN_OFFSET PageHeader.LSN_SIZE =
      beBytes 8 h.lsn := by
    rw [readSlice_writeSlice_before]
    · rw [readSlice_writeSlice_self']
      · rw [beBytes_length]
      · rw [beBytes_length, hl3]
        exact le_trans (by decide) h28
    · decide
    · rw [beBytes_length, hl4]
      exact le_trans (by decide) h28
  have hr_fsp : readSlice (writeSlice (writeSlice (writeSlice (writeSlice (writeSlice buffer PageHeader.PAGE_ID_OFFSET (beBytes 8 h.page_id)) PageHeader.PAGE_TYPE_OFFSET h.page_type.to_be_bytes) PageHeader.CHECKSUM_OFFSET (beBytes 4 h.checksum)) PageHeader.LSN_OFFSET (beBytes 8 h.lsn)) PageHeader.FREE_SPACE_POINTER_OFFSET (beBytes 4 h.free_space_pointer)) PageHeader.FREE_SPACE_POINTER_OFFSET
      PageHeader.FREE_SPACE_POINTER_SIZE = beBytes 4 h.free_space_pointer := by
    rw [readSlice_writeSlice_self']
    · rw [beBytes_length]
    · rw [beBytes_length, hl4]
      exact le_trans (by decide) h28
  exact ⟨hl5, hr_pid, hr_tag, hr_ck, hr_lsn, hr_fsp⟩

/-- C5: for every PageHeader whose page_type is one of the five enumeration
values (all inhabitants of `PageType`) and whose numeric fields fit their
machine widths, deserializing the buffer produced by serializing it
reproduces all five fields exactly. -/
theorem page_header_roundtrip (h : PageHeader) (buffer : List Nat)
    (hid : h.page_id < 2 ^ 64) (hck : h.checksum < 2 ^ 32)
    (hlsn : h.lsn < 2 ^ 64) (hfsp : h.free_space_pointer < 2 ^ 32)
    (hlen : PageHeader.size ≤ buffer.length) :
    (PageHeader.serialize h buffer).bind (fun r => PageHeader.deserialize r.1) =
      some h := by
  obtain ⟨hl5, hr_pid, hr_tag, hr_ck, hr_lsn, hr_fsp⟩ :=
    PageHeader.serializedBytes_spec h buffer hlen
  conv_lhs => rw [PageHeader.serialize_eq h buffer hlen]
  rw [Option.some_bind]
  simp only [PageHeader.deserialize]
  rw [if_neg (by rw [hl5]; exact not_lt.mpr hlen)]
  have hv_pid : beVal (beBytes 8 h.page_id) = h.page_id :=
    beVal_beBytes_of_lt 8 _ (lt_of_lt_of_eq hid (by norm_num))
  have hv_ck : beVal (beBytes 4 h.checksum) = h.checksum :=
    beVal_beBytes_of_lt 4 _ (lt_of_lt_of_eq hck (by norm_num))
  have hv_lsn : beVal (beBytes 8 h.lsn) = h.lsn :=
    beVal_beBytes_of_lt 8 _ (lt_of_lt_of_eq hlsn (by norm_num))
  have hv_fsp : beVal (beBytes 4 h.free_space_pointer) = h.free_space_pointer :=
    beVal_beBytes_of_lt 4 _ (lt_of_lt_of_eq hfsp (by norm_num))
  simp only [hr_tag, beVal_to_be_bytes, PageType.from_be_bytes_tag, hr_pid,
    hr_ck, hr_lsn, hr_fsp, hv_pid, hv_ck, hv_lsn, hv_fsp]

/-- Witness for the round-trip theorem at a concrete header and buffer. -/
theorem page_header_roundtrip_witness :
    (PageHeader.serialize
        { page_id := 7, page_type := PageType.data, checksum := 9,
          lsn := 11, free_space_pointer := 36 }
        (List.replicate 32 0)).bind (fun r => PageHeader.deserialize r.1) =
      some
        { page_id := 7, page_type := PageType.data, checksum := 9,
          lsn := 11, free_space_pointer := 36 } :=
  page_header_roundtrip
    { page_id := 7, page_type := PageType.data, checksum := 9,
      lsn := 11, free_space_pointer := 36 }
    (List.replicate 32 0) (by norm_num) (by norm_num) (by norm_num)
    (by norm_num) (by decide)

/-- Helper: the strict page-type decoder rejects every tag of 5 or more. -/
theorem PageType.from_be_bytes_none (b : Nat) (hb : 5 ≤ b) :
    PageType.from_be_bytes b = none := by
  unfold PageType.from_be_bytes
  rw [if_neg (by omega), if_neg (by omega), if_neg (by omega),
    if_neg (by omega), if_neg (by omega)]

/-- C7: `PageHeader::serialize` fails with the buffer-too-small panic exactly
when the destination is shorter than `PageHeader::size()` (the padded end of
the last header field); on any longer buffer it succeeds. -/
theorem page_header_serialize_buffer_too_small_iff (h : PageHeader)
    (buffer : List Nat) :
    PageHeader.serialize h buffer = none ↔ buffer.length < PageHeader.size := by
  constructor
  · intro hn
    by_contra hge
    rw [PageHeader.serialize_eq h buffer (not_lt.mp hge)] at hn
    exact Option.noConfusion hn
  · intro hlt
    simp [PageHeader.serialize, hlt]

/-- C8: while decoding a page header, a tag byte of 5 or more makes the
strict decoder (and hence `PageHeader::deserialize`) fail, never substitute;
the separate `From<u16>` conversion instead maps every unrecognized value to
`Data`. -/
theorem page_type_decoding_strict_vs_lenient (b v : Nat) (hb : 5 ≤ b)
    (hv : 5 ≤ v) :
    PageType.from_be_bytes b = none ∧ PageType.fromU16 v = PageType.data ∧
    ∀ buffer : List Nat, PageHeader.size ≤ buffer.length →
      beVal (readSlice buffer PageHeader.PAGE_TYPE_OFFSET
        PageHeader.PAGE_TYPE_SIZE) = b →
      PageHeader.deserialize buffer = none := by
  refine ⟨PageType.from_be_bytes_none b hb, ?_, ?_⟩
  · unfold PageType.fromU16
    rw [if_neg (by omega), if_neg (by omega), if_neg (by omega),
      if_neg (by omega), if_neg (by omega)]
  · intro buffer hlen htag
    simp only [PageHeader.deserialize]
    rw [if_neg (not_lt.mpr hlen), htag, PageType.from_be_bytes_none b hb]

/-- Witness: tag byte 7 is rejected by the strict decoder and by
`deserialize` on a 28-byte buffer carrying it, while `From<u16>` turns 9
into `Data`. -/
theorem page_type_decoding_strict_vs_lenient_witness :
    PageType.from_be_bytes 7 = none ∧ PageType.fromU16 9 = PageType.data ∧
    PageHeader.deserialize (List.replicate 8 0 ++ 7 :: List.replicate 19 0) =
      none := by
  obtain ⟨h1, h2, h3⟩ :=
    page_type_decoding_strict_vs_lenient 7 9 (by norm_num) (by norm_num)
  exact ⟨h1, h2, h3 _ (by decide) (by decide)⟩

/-! ### Alignment law for the layout padding functions (C10) -/

/-- Folding a sequence of field sizes through pad-then-advance, as the
serializers and the layout constants do: each field is placed at the current
cursor plus the padding `padding_needed_from_size` computes, and the cursor
then advances past the field. -/
def fieldOffsets : Nat → List Nat → List Nat
  | _, [] => []
  | cursor, s :: rest =>
    let off := cursor + padding_needed_from_size cursor s
    off :: fieldOffsets (off + s) rest

/-- For the 1/2/4/8-byte primitive sizes the alignment the source's `match`
selects is the size itself. -/
theorem padding_eq_of_size (off s : Nat)
    (hs : s = 1 ∨ s = 2 ∨ s = 4 ∨ s = 8) :
    padding_needed_from_size off s = gen_padding s (off % s) := by
  rcases hs with rfl | rfl | rfl | rfl <;> rfl

theorem gen_padding_mod (c a : Nat) (ha : 0 < a) :
    gen_padding a (c % a) = (a - c % a) % a := by
  unfold gen_padding
  by_cases h : c % a = 0
  · rw [if_pos h, h, Nat.sub_zero, Nat.mod_self]
  · rw [if_neg h]
    have hlt : c % a < a := Nat.mod_lt _ ha
    exact (Nat.mod_eq_of_lt (by omega)).symm

theorem add_gen_padding_mod (c a : Nat) (ha : 0 < a) :
    (c + gen_padding a (c % a)) % a = 0 := by
  unfold gen_padding
  by_cases h : c % a = 0
  · rw [if_pos h, Nat.add_zero, h]
  · rw [if_neg h]
    have hlt : c % a < a := Nat.mod_lt _ ha
    have hdm := Nat.div_add_mod c a
    have hmul : a * (c / a + 1) = a * (c / a) + a := by ring
    have hsum : c + (a - c % a) = a * (c / a + 1) := by omega
    rw [hsum, Nat.mul_mod_right]

theorem fieldOffsets_ge (start : Nat) (sizes : List Nat) :
    ∀ x ∈ fieldOffsets start sizes, start ≤ x := by
  induction sizes generalizing start with
  | nil => simp [fieldOffsets]
  | cons s rest ih =>
    intro x hx
    simp only [fieldOffsets, List.mem_cons] at hx
    rcases hx with rfl | hx
    · omega
    · have := ih (start + padding_needed_from_size start s + s) x hx
      omega

theorem fieldOffsets_aligned_mono (start : Nat) (sizes : List Nat)
    (hsz : ∀ s ∈ sizes, s = 1 ∨ s = 2 ∨ s = 4 ∨ s = 8) :
    List.Chain' (· ≤ ·) (fieldOffsets start sizes) ∧
    ∀ p ∈ (fieldOffsets start sizes).zip sizes, p.1 % p.2 = 0 := by
  induction sizes generalizing start with
  | nil => exact ⟨List.chain'_nil, by simp [fieldOffsets]⟩
  | cons s rest ih =>
    have hs : s = 1 ∨ s = 2 ∨ s = 4 ∨ s = 8 := hsz s (by simp)
    have hspos : 0 < s := by rcases hs with rfl | rfl | rfl | rfl <;> norm_num
    have hrest : ∀ t ∈ rest, t = 1 ∨ t = 2 ∨ t = 4 ∨ t = 8 := fun t ht =>
      hsz t (by simp [ht])
    obtain ⟨ihc, iha⟩ := ih (start + padding_needed_from_size start s + s) hrest
    constructor
    · show List.Chain' (· ≤ ·)
        ((start + padding_needed_from_size start s) ::
          fieldOffsets (start + padding_needed_from_size start s + s) rest)
      rw [List.chain'_cons']
      refine ⟨fun y hy => ?_, ihc⟩
      have hmem := List.mem_of_mem_head? hy
      have := fieldOffsets_ge (start + padding_needed_from_size start s + s)
        rest y hmem
      omega
    · intro p hp
      simp only [fieldOffsets, List.zip_cons_cons, List.mem_cons] at hp
      rcases hp with rfl | hp
      · show (start + padding_needed_from_size start s) % s = 0
        rw [padding_eq_of_size start s hs]
        exact add_gen_padding_mod start s hspos
      · exact iha p hp

/-- C10: for 1/2/4/8-byte primitive sizes the padding the layout functions
compute equals `(alignment - offset % alignment) % alignment` with the
alignment equal to the size, making `offset + padding` a multiple of the
alignment; folding any such size sequence through pad-then-advance yields a
monotonically non-decreasing offset sequence whose entries are multiples of
their field's alignment. -/
theorem padding_alignment_law :
    (∀ offset s, (s = 1 ∨ s = 2 ∨ s = 4 ∨ s = 8) →
      padding_needed_from_size offset s = (s - offset % s) % s ∧
      (offset + padding_needed_from_size offset s) % s = 0) ∧
    (∀ start sizes, (∀ s ∈ sizes, s = 1 ∨ s = 2 ∨ s = 4 ∨ s = 8) →
      List.Chain' (· ≤ ·) (fieldOffsets start sizes) ∧
      ∀ p ∈ (fieldOffsets start sizes).zip sizes, p.1 % p.2 = 0) := by
  constructor
  · intro offset s hs
    have hspos : 0 < s := by rcases hs with rfl | rfl | rfl | rfl <;> norm_num
    rw [padding_eq_of_size offset s hs]
    exact ⟨gen_padding_mod offset s hspos, add_gen_padding_mod offset s hspos⟩
  · exact fieldOffsets_aligned_mono

/-- Witness for the alignment law at offset 3, size 4 and at the size
sequence of a u64/u8/u32 record. -/
theorem padding_alignment_law_witness :
    (padding_needed_from_size 3 4 = (4 - 3 % 4) % 4 ∧
      (3 + padding_needed_from_size 3 4) % 4 = 0) ∧
    (List.Chain' (· ≤ ·) (fieldOffsets 0 [8, 1, 4]) ∧
      ∀ p ∈ (fieldOffsets 0 [8, 1, 4]).zip [8, 1, 4], p.1 % p.2 = 0) :=
  ⟨padding_alignment_law.1 3 4 (by norm_num),
    padding_alignment_law.2 0 [8, 1, 4] (by decide)⟩

/-! ### Fresh-file initialization always panics (C1, C2) -/

/-- `initialize_file` fails for every page size: either the header does not
fit, or the `assert!(metadata_offset == PageHeader::SIZE)` fires, since
`metadata_offset` holds only the padding (4) and not the padded offset. -/
theorem init_file_eq_none (page_size : Nat) :
    PagedFileManager.init_file page_size = none := by
  by_cases hps : (List.replicate page_size 0).length < PageHeader.size
  · have hser : PageHeader.serialize
        (PageHeader.new PagedFileManager.METADATA_PAGE_ID PageType.metadata)
        (List.replicate page_size 0) = none := by
      unfold PageHeader.serialize
      rw [if_pos hps]
    simp only [PagedFileManager.init_file, hser]
  · have hlen : PageHeader.size ≤ (List.replicate page_size 0).length :=
      not_lt.mp hps
    simp only [PagedFileManager.init_file, PageHeader.serialize_eq _ _ hlen]
    rw [if_neg (by decide)]

/-- `PagedFileManager::new` can never construct a manager over an empty
file: `initialize_file` always hits its failing assertion. -/
theorem pfm_new_empty_eq_none (page_size max_cache_size : Nat) :
    PagedFileManager.pfm_new [] page_size max_cache_size = none := by
  unfold PagedFileManager.pfm_new
  rw [if_pos (by simp), init_file_eq_none]
  rfl

set_option maxRecDepth 8000 in
/-- C1 (code bug): the end-to-end scenario is impossible.  A fresh file can
never be created (the initialization assertion fails for every page size and
cache size), `create_data_page` always panics on its own
`assert!(final_offset == free_space_pointer)` (8 vs 36 on the demonstration
state), and even the page id `allocate_page` hands out on a well-formed
one-page file is 2, not 1. -/
theorem create_data_page_scenario_impossible :
    (∀ page_size max_cache_size : Nat,
      PagedFileManager.pfm_new [] page_size max_cache_size = none) ∧
    PagedFileManager.create_data_page stDemo = none ∧
    (PagedFileManager.allocate_page stDemo).map (fun r => r.2) = some 2 :=
  ⟨pfm_new_empty_eq_none, by decide, by decide⟩

set_option maxRecDepth 8000 in
/-- C2 (code bug): a fresh file cannot be created at all; from a well-formed
one-page file a single `allocate_page` call leaves `total_pages = 2` (the
N+1 part the claim gets right) but a file of 3 pages, not 2 — page id 2 is
written and page 1 is skipped — and a second call panics on the emptied
cache entry. -/
theorem allocate_page_fresh_file_invariant_fails :
    (∀ page_size max_cache_size : Nat,
      PagedFileManager.pfm_new [] page_size max_cache_size = none) ∧
    (PagedFileManager.allocate_page stDemo).map
      (fun r => (r.2, r.1.file.length)) = some (2, 3 * 64) ∧
    (PagedFileManager.allocate_page stDemo).bind
      (fun r => (PagedFileManager.read_page r.1.file 0 64).bind
        (fun pb => PageWindow.read_total_pages (pb.drop PageHeader.SIZE))) =
      some 2 ∧
    (PagedFileManager.allocate_page stDemo).bind
      (fun r => PagedFileManager.allocate_page r.1) = none :=
  ⟨pfm_new_empty_eq_none, by decide, by decide, by decide⟩

/-- The keys-length write of `IndexPage::serialize` slices the inverted
range `buffer[KEYS_LEN_OFFSET..KEYS_LEN_SIZE]` = `buffer[16..4]`, which
panics for every buffer and source. -/
theorem copy_keys_len_always_fails (b src : List Nat) :
    copy_from_slice b IndexPage.KEYS_LEN_OFFSET IndexPage.KEYS_LEN_SIZE src =
      none := by
  unfold copy_from_slice
  rw [if_neg]
  intro hc
  exact absurd hc.1 (by decide)

/-- C3 (code bug): `IndexPage::serialize` never succeeds — on any page and
any buffer it panics, at the latest at the inverted keys-length slice. -/
theorem index_page_serialize_never_succeeds (p : IndexPage)
    (buffer : List Nat) :
    IndexPage.serialize p buffer = none := by
  cases hc1 : copy_from_slice buffer IndexPage.IS_LEAF_OFFSET
      (IndexPage.IS_LEAF_OFFSET + IndexPage.IS_LEAF_SIZE)
      [if p.is_leaf then 1 else 0] with
  | none => simp only [IndexPage.serialize, hc1, ite_self]
  | some b1 =>
    cases hc2 : copy_from_slice b1 IndexPage.NEXT_LEAF_OFFSET
        (IndexPage.NEXT_LEAF_OFFSET + IndexPage.NEXT_LEAF_SIZE)
        (beBytes 8 p.next_leaf) with
    | none => simp only [IndexPage.serialize, hc1, hc2, ite_self]
    | some b2 =>
      simp only [IndexPage.serialize, hc1, hc2, copy_keys_len_always_fails,
        ite_self]

set_option maxRecDepth 8000 in
/-- C4 (code bug): after one `allocate_page` call on the demonstration
state the buffer pool's only entry maps page 0 to a 0-byte buffer — not a
`page_size`-byte one — because `mem::take` replaced the cached vector with
an empty default. -/
theorem allocate_page_breaks_buffer_pool_entry_size :
    (PagedFileManager.allocate_page stDemo).map
      (fun r => r.1.buffer_pool.map (fun e => (e.1, e.2.length))) =
      some [(0, 0)] ∧
    stDemo.page_size = 64 :=
  ⟨by decide, rfl⟩

set_option maxRecDepth 8000 in
/-- C6 counterexample: the page that `allocate_page` writes at the new page
id is zero-filled, and its header decodes with `free_space_pointer = 0`,
strictly below the header size — a page reachable on disk through a
sanctioned operation violating the claimed invariant. -/
theorem zero_page_free_space_pointer_counterexample :
    (PagedFileManager.allocate_page stDemo).bind
      (fun r => PagedFileManager.read_page r.1.file r.2 stDemo.page_size) =
      some (List.replicate 64 0) ∧
    (PageHeader.deserialize (List.replicate 64 0)).map
      (fun hd => hd.free_space_pointer) = some 0 ∧
    ¬ PageHeader.size ≤ 0 :=
  ⟨by decide, by decide, by decide⟩

/-- C6 amended: every free-space pointer the sanctioned operations
construct — `PageHeader::new` (used for the metadata page) and the adjusted
headers of `create_data_page` / `create_index_page` — lies between the
header size and the default page size; only the zero-filled pages
`allocate_page` appends fall outside the bound. -/
theorem constructed_free_space_pointer_bounds (page_id : Nat)
    (page_type : PageType) (is_leaf : Bool) :
    (PageHeader.size ≤ (PageHeader.new page_id page_type).free_space_pointer ∧
      (PageHeader.new page_id page_type).free_space_pointer ≤
        PagedFileManager.DEFAULT_PAGE_SIZE) ∧
    (PageHeader.size ≤ PagedFileManager.data_page_initial_fsp ∧
      PagedFileManager.data_page_initial_fsp ≤
        PagedFileManager.DEFAULT_PAGE_SIZE) ∧
    (PageHeader.size ≤ PagedFileManager.index_page_initial_fsp is_leaf ∧
      PagedFileManager.index_page_initial_fsp is_leaf ≤
        PagedFileManager.DEFAULT_PAGE_SIZE) := by
  have hfsp : (PageHeader.new page_id page_type).free_space_pointer = 32 := rfl
  refine ⟨⟨?_, ?_⟩, ⟨by decide, by decide⟩, ?_⟩
  · rw [hfsp]
    decide
  · rw [hfsp]
    decide
  · cases is_leaf <;> exact ⟨by decide, by decide⟩

/-! ### Buffer-pool policy (C9) -/

theorem cacheContains_false_forall (cache : Cache) (page_id : Nat)
    (h : cacheContains cache page_id = false) :
    ∀ e ∈ cache, e.1 ≠ page_id := by
  intro e he
  unfold cacheContains at h
  rw [List.any_eq_false] at h
  have := h e he
  simpa using this

theorem cacheLookup_append_self (l : Cache) (page_id : Nat) (v : List Nat)
    (hl : ∀ e ∈ l, e.1 ≠ page_id) :
    cacheLookup (l ++ [(page_id, v)]) page_id = some v := by
  unfold cacheLookup
  induction l with
  | nil => simp
  | cons e rest ih =>
    have he : ¬(e.1 == page_id) = true := by
      simpa using hl e (by simp)
    rw [List.cons_append, List.find?_cons_of_neg]
    · exact ih (fun x hx => hl x (by simp [hx]))
    · exact he

theorem cacheContains_append_self (l : Cache) (page_id : Nat) (v : List Nat) :
    cacheContains (l ++ [(page_id, v)]) page_id = true := by
  unfold cacheContains
  simp

/-- C9: `load_into_buffer_pool` consults the loader only on a miss — on a
hit the result is independent of the loader and the pool is unchanged — and
for every `max_cache_size ≥ 1` a pool holding at most `max_cache_size`
entries before the call holds at most that many after, while containing the
requested page; with `max_cache_size = 1` this pins the pool to exactly one
entry after loading page A and then page B. -/
theorem load_into_buffer_pool_policy (cache : Cache)
    (max_cache_size page_id : Nat) (loader loader' : Option (List Nat))
    (hmax : 1 ≤ max_cache_size) (hlen : cache.length ≤ max_cache_size) :
    (cacheContains cache page_id = true →
      PagedFileManager.load_into_buffer_pool cache max_cache_size page_id
          loader =
        PagedFileManager.load_into_buffer_pool cache max_cache_size page_id
          loader' ∧
      ∀ c' bytes,
        PagedFileManager.load_into_buffer_pool cache max_cache_size page_id
          loader = some (c', bytes) → c' = cache) ∧
    (∀ c' bytes,
      PagedFileManager.load_into_buffer_pool cache max_cache_size page_id
        loader = some (c', bytes) →
      c'.length ≤ max_cache_size ∧ cacheContains c' page_id = true) := by
  constructor
  · intro hhit
    unfold PagedFileManager.load_into_buffer_pool
    simp only [if_pos hhit]
    refine ⟨trivial, ?_⟩
    intro c' bytes hres
    cases hl : cacheLookup cache page_id with
    | none =>
      rw [hl] at hres
      exact Option.noConfusion hres
    | some v =>
      rw [hl] at hres
      injection hres with h
      exact (congrArg Prod.fst h).symm
  · intro c' bytes hres
    unfold PagedFileManager.load_into_buffer_pool at hres
    by_cases hhit : cacheContains cache page_id = true
    · rw [if_pos hhit] at hres
      cases hl : cacheLookup cache page_id with
      | none =>
        rw [hl] at hres
        exact Option.noConfusion hres
      | some v =>
        rw [hl] at hres
        injection hres with h
        have hc : c' = cache := (congrArg Prod.fst h).symm
        subst hc
        exact ⟨hlen, hhit⟩
    · rw [if_neg hhit] at hres
      have hmiss : ∀ e ∈ cache, e.1 ≠ page_id :=
        cacheContains_false_forall cache page_id
          (Bool.not_eq_true _ ▸ hhit)
      cases loader with
      | none => exact Option.noConfusion hres
      | some page_data =>
        by_cases he : max_cache_size ≤ cache.length
        · simp only [if_pos he] at hres
          have hlook : cacheLookup (cache.tail ++ [(page_id, page_data)])
              page_id = some page_data :=
            cacheLookup_append_self _ _ _
              (fun x hx => hmiss x (List.mem_of_mem_tail hx))
          rw [hlook] at hres
          injection hres with h
          have hc : c' = cache.tail ++ [(page_id, page_data)] :=
            (congrArg Prod.fst h).symm
          subst hc
          refine ⟨?_, cacheContains_append_self _ _ _⟩
          rw [List.length_append, List.length_tail]
          simp only [List.length_cons, List.length_nil]
          omega
        · simp only [if_neg he] at hres
          have hlook : cacheLookup (cache ++ [(page_id, page_data)])
              page_id = some page_data :=
            cacheLookup_append_self _ _ _ hmiss
          rw [hlook] at hres
          injection hres with h
          have hc : c' = cache ++ [(page_id, page_data)] :=
            (congrArg Prod.fst h).symm
          subst hc
          refine ⟨?_, cacheContains_append_self _ _ _⟩
          rw [List.length_append]
          simp only [List.length_cons, List.length_nil]
          omega

/-- Witness: the eviction scenario with `max_cache_size = 1` — the pool
holds page 1 (the state after loading page A), loading page 2 evicts it and
leaves exactly the one entry for page 2. -/
theorem load_into_buffer_pool_policy_witness :
    ([(2, [9])] : Cache).length ≤ 1 ∧ cacheContains [(2, [9])] 2 = true :=
  (load_into_buffer_pool_policy [(1, [7])] 1 2 (some [9]) none (by decide)
    (by decide)).2 [(2, [9])] [9] (by decide)
